import Mathlib

/-
Verification of the candidate scoring and validation pipeline of the
resume-screening backend (backend/core/ml_engine_enhanced.py,
backend/utils/resume_validator.py, backend/utils/skill_extractor.py,
backend/utils/experience_education_extractor.py, backend/core/config.py).

Modelling conventions:
  - Python floats are modelled as exact rationals.
  - Python strings are Lean strings; all the texts involved are ASCII.
  - The external providers (sentence-transformer embeddings, spaCy NER,
    the rapidfuzz ratio, and the stdlib email/phone regex tests) are
    modelled as explicit parameters of the functions that call them,
    mirroring the call sites in the source.
  - The date-range / experience-statement regular expressions of the
    source are implemented as direct scanners over character lists with
    Python re.findall semantics (leftmost match at each position,
    scanning resumes after the end of a match).  Each of the concrete
    patterns involved is deterministic, so no backtracking is needed.
-/

namespace ResumeAI

set_option maxRecDepth 4000

/-- Python str.isspace-relevant whitespace characters, as used by
str.strip, str.split and the regex class backslash-s. -/
def isPySpace (c : Char) : Bool :=
  c == ' ' || c == '\t' || c == '\n' || c == '\r' || c == '\x0b' || c == '\x0c'

/-- ASCII lower-casing of a string (Python str.lower on ASCII input). -/
def pyLower (s : String) : String :=
  String.mk (s.toList.map Char.toLower)

/-- Length of Python text.strip(): characters remaining after removing
leading and trailing whitespace. -/
def pyStripLen (s : String) : Nat :=
  (((s.toList.dropWhile isPySpace).reverse).dropWhile isPySpace).length

/-- Bool test: pat is a leading segment of l. -/
def leadsWith : List Char → List Char → Bool
  | [], _ => true
  | _ :: _, [] => false
  | a :: as, b :: bs => a == b && leadsWith as bs

/-- Bool test: pat occurs contiguously inside l (Python sub in s). -/
def hasSubL (pat : List Char) : List Char → Bool
  | [] => pat.isEmpty
  | b :: bs => leadsWith pat (b :: bs) || hasSubL pat bs

/-- Python (sub in s) on strings. -/
def hasSubS (pat s : String) : Bool :=
  hasSubL pat.toList s.toList

/-- Number of whitespace-separated words, Python len(text.split()). -/
def wordCountAux : List Char → Bool → Nat
  | [], _ => 0
  | c :: cs, inWord =>
      if isPySpace c then wordCountAux cs false
      else (if inWord then 0 else 1) + wordCountAux cs true

def wordCount (s : String) : Nat := wordCountAux s.toList false

/-- Split on newline characters, Python text.split(chr 10). -/
def splitLinesAux : List Char → List Char → List (List Char)
  | [], acc => [acc.reverse]
  | c :: cs, acc =>
      if c == '\n' then acc.reverse :: splitLinesAux cs []
      else splitLinesAux cs (c :: acc)

/-- Count of lines with non-empty strip, as in the validator structure
check: len of lines whose strip is non-empty. -/
def lineCount (s : String) : Nat :=
  ((splitLinesAux s.toList []).filter
    (fun l => !(l.dropWhile isPySpace).isEmpty)).length

/-- Round a rational to the nearest integer, ties to even
(the rounding used by Python round). -/
def roundHalfEven (q : ℚ) : ℤ :=
  if q - ⌊q⌋ < 1/2 then ⌊q⌋
  else if 1/2 < q - ⌊q⌋ then ⌊q⌋ + 1
  else if ⌊q⌋ % 2 = 0 then ⌊q⌋ else ⌊q⌋ + 1

/-- Python round(x, 2) over exact rationals. -/
def pyRound2 (q : ℚ) : ℚ := (roundHalfEven (q * 100) : ℚ) / 100

/-- Python round(x, 1) over exact rationals. -/
def pyRound1 (q : ℚ) : ℚ := (roundHalfEven (q * 10) : ℚ) / 10

/-
Semantic similarity calibration
(EnhancedMLEngine.compute_semantic_similarity, steps 4-5).
The embedding, chunking and keyword steps call the external
sentence-transformer model; their outputs enter here only through the
combined raw score, so the calibration is embedded as a function of
that score.
-/

/-- Step 4 of compute_semantic_similarity: the weighted combination of
full-document similarity (50 percent), chunk similarity (30 percent),
keyword overlap (20 percent) and the seniority boost, scaled by 100. -/
def combinedScore (full chunk overlap boost : ℚ) : ℚ :=
  (full * 0.50 + chunk * 0.30 + overlap * 0.20 + boost) * 100

/-- Step 5 of compute_semantic_similarity: the five-branch piecewise
calibration of the combined score. -/
def semCalibrated (x : ℚ) : ℚ :=
  if x < 10 then x * 1.5
  else if x < 25 then 15 + (x - 10) * 1.67
  else if x < 40 then 40 + (x - 25) * 1.67
  else if x < 55 then 65 + (x - 40) * 1.33
  else 85 + (x - 55) * 0.29

/-- Return value of compute_semantic_similarity as a function of the
combined raw score: the calibrated score clamped to the unit-to-100
range by max(0, min(100, calibrated)). -/
def computeSemanticSimilarity (combined : ℚ) : ℚ :=
  max 0 (min 100 (semCalibrated combined))

/-
Final weighted score (EnhancedMLEngine.calculate_final_score together
with the weights of backend/core/config.py Settings).
-/

def SEMANTIC_SCORE_WEIGHT : ℚ := 0.20

def SKILL_MATCH_WEIGHT : ℚ := 0.40

def EXPERIENCE_WEIGHT : ℚ := 0.30

def EDUCATION_WEIGHT : ℚ := 0.10

/-- EnhancedMLEngine.calculate_final_score: weighted raw score, the
final piecewise boost, the cap min(98, score) and rounding to two
decimal places. -/
def calculateFinalScore (semantic skill exper edu : ℚ) : ℚ :=
  let raw := semantic * SEMANTIC_SCORE_WEIGHT + skill * SKILL_MATCH_WEIGHT +
    exper * EXPERIENCE_WEIGHT + edu * EDUCATION_WEIGHT
  let fs :=
    if raw ≥ 75 then 75 + (raw - 75) * 0.8
    else if raw ≥ 60 then 60 + (raw - 60) * 1.0
    else if raw ≥ 40 then 40 + (raw - 40) * 1.1
    else raw
  pyRound2 (min 98 fs)

/-
Education score (EnhancedMLEngine.compute_education_score).  An entry of
the education list is either a dict with degree and specialization
fields or a plain string.
-/

inductive EduItem where
  | dict (degree specialization : String)
  | txt (s : String)

/-- Text examined for one entry: for a dict, degree plus a space plus
specialization (dict.get with empty-string defaults); otherwise the
string itself. -/
def eduText : EduItem → String
  | .dict d sp => d ++ " " ++ sp
  | .txt s => s

/-- The education_weights dict of compute_education_score, in literal
order; the inner loop scans the keys in this order and breaks at the
first key contained in the lower-cased degree text. -/
def educationWeights : List (String × ℚ) :=
  [("phd", 100), ("doctorate", 100), ("master", 90), ("mba", 90),
   ("m.tech", 90), ("ms", 90), ("bachelor", 75), ("b.tech", 75),
   ("b.e", 75), ("bs", 75), ("diploma", 60), ("certification", 50)]

/-- Score contributed by a single entry: value of the first key of
education_weights occurring in the lower-cased degree text, otherwise
zero (no update of max_score). -/
def entryScore (e : EduItem) : ℚ :=
  match educationWeights.find? (fun p => hasSubS p.1 (pyLower (eduText e))) with
  | some p => p.2
  | none => 0

/-- EnhancedMLEngine.compute_education_score: 50 for an empty list,
otherwise the maximum entry score, replaced by 50 when it is zero. -/
def computeEducationScore (l : List EduItem) : ℚ :=
  match l with
  | [] => 50
  | _ :: _ =>
    let m := (l.map entryScore).foldl max 0
    if 0 < m then m else 50

/-
Seniority classification
(ExperienceExtractor.classify_seniority_level).
-/

/-- ExperienceExtractor.classify_seniority_level. -/
def classifySeniorityLevel (years : ℚ) : String :=
  if years < 1 then "Entry Level"
  else if years < 3 then "Junior"
  else if years < 5 then "Mid-Level"
  else if years < 8 then "Senior"
  else "Lead/Principal"

/-- The five tier names in increasing order of seniority. -/
def seniorityTiers : List String :=
  ["Entry Level", "Junior", "Mid-Level", "Senior", "Lead/Principal"]

/-- Position of a tier name in the seniority order. -/
def tierIdx (s : String) : Nat :=
  if s = "Entry Level" then 0
  else if s = "Junior" then 1
  else if s = "Mid-Level" then 2
  else if s = "Senior" then 3
  else 4

/-
Skill matching (EnhancedMLEngine.compute_skill_match_score).  The
rapidfuzz ratio function is external: it is modelled as an optional
function parameter mirroring the try-import in the source (none when
the import fails), returning the 0-100 ratio that the source divides
by 100.
-/

/-- Python str.strip. -/
def pyStrip (s : String) : String :=
  String.mk (((s.toList.dropWhile isPySpace).reverse.dropWhile isPySpace).reverse)

/-- Python s.lower().strip() applied to every skill before matching. -/
def pyLowerStrip (s : String) : String := pyStrip (pyLower s)

/-- Python dict literal lookup with default: the value of the last
binding of the key wins. -/
def dictGet (l : List (String × ℚ)) (k : String) (dflt : ℚ) : ℚ :=
  (l.foldl (fun acc p => if p.1 == k then some p.2 else acc) none).getD dflt

/-- The skill_weights dict of compute_skill_match_score in literal
order; the gitlab key appears twice in the source literal and Python
keeps the last value, which dictGet reproduces. -/
def skillWeightsTable : List (String × ℚ) :=
  [("python", 1.5), ("java", 1.5), ("javascript", 1.5), ("typescript", 1.5),
   ("c++", 1.5), ("c#", 1.5), ("go", 1.5), ("rust", 1.5), ("kotlin", 1.5),
   ("django", 1.5), ("flask", 1.5), ("fastapi", 1.5), ("spring", 1.5),
   ("react", 1.5), ("angular", 1.5), ("vue", 1.5), ("node.js", 1.5),
   ("express", 1.5), (".net", 1.5), ("asp.net", 1.5),
   ("postgresql", 1.3), ("mysql", 1.3), ("mongodb", 1.3), ("redis", 1.3),
   ("oracle", 1.3), ("sql server", 1.3), ("cassandra", 1.3), ("dynamodb", 1.3),
   ("aws", 1.3), ("azure", 1.3), ("gcp", 1.3), ("docker", 1.3),
   ("kubernetes", 1.3), ("k8s", 1.3), ("terraform", 1.3), ("jenkins", 1.3),
   ("ci/cd", 1.3), ("gitlab", 1.3), ("github actions", 1.3),
   ("tensorflow", 1.4), ("pytorch", 1.4), ("scikit-learn", 1.4),
   ("pandas", 1.4), ("numpy", 1.4), ("keras", 1.4), ("machine learning", 1.4),
   ("deep learning", 1.4), ("nlp", 1.4), ("computer vision", 1.4),
   ("rest api", 1.2), ("graphql", 1.2), ("microservices", 1.2),
   ("api", 1.2), ("restful", 1.2), ("grpc", 1.2), ("soap", 1.2),
   ("git", 1.0), ("github", 1.0), ("gitlab", 1.0), ("bitbucket", 1.0),
   ("pytest", 1.2), ("unittest", 1.2), ("jest", 1.2), ("junit", 1.2),
   ("selenium", 1.2), ("cypress", 1.2), ("testing", 1.2),
   ("default", 1.0)]

/-- Weight of a required skill: skill_weights.get(skill, 1.0 via the
default entry). -/
def skillWeight (s : String) : ℚ := dictGet skillWeightsTable s 1

/-- The skill_synonyms dict of compute_skill_match_score. -/
def skillSynonyms : List (String × List String) :=
  [("javascript", ["js", "node", "nodejs"]),
   ("typescript", ["ts"]),
   ("kubernetes", ["k8s"]),
   ("postgresql", ["postgres", "psql"]),
   ("mongodb", ["mongo"])]

/-- Synonym list of a skill (empty when the skill is not a key). -/
def synonymsOf (s : String) : List String :=
  (skillSynonyms.foldl (fun acc p => if p.1 == s then some p.2 else acc) none).getD []

/-- One step of the found-skill loop of compute_skill_match_score: the
substring containment hit raises best_match to 0.85, then a fuzzy hit
with ratio above 80 (only consulted when the ratio function imported
and the skill is longer than 3 characters) raises it to ratio/100
times 0.95. -/
def foundStep (fuzz : Option (String → String → ℚ)) (skill : String)
    (acc : ℚ) (f : String) : ℚ :=
  let acc1 := if hasSubS skill f || hasSubS f skill then max acc 0.85 else acc
  match fuzz with
  | none => acc1
  | some rf =>
      if 3 < skill.length then
        if 0.80 < rf skill f / 100 then max acc1 (rf skill f / 100 * 0.95)
        else acc1
      else acc1

/-- best_match for one required skill: 1.0 on an exact hit, otherwise
the maximum of the synonym hit (0.95) and the per-found-skill hits. -/
def bestMatchFor (fuzz : Option (String → String → ℚ))
    (foundL : List String) (skill : String) : ℚ :=
  if skill ∈ foundL then 1
  else
    let b0 : ℚ :=
      if (synonymsOf skill).any (fun syn => foundL.contains syn) then
        max 0 0.95
      else 0
    foundL.foldl (foundStep fuzz skill) b0

/-- The weighted ratio scaled to 100, before boosting and rounding:
sum of weight times strength over sum of weight, times 100, on the
lower-stripped skill lists. -/
def rawSkillScore (fuzz : Option (String → String → ℚ))
    (found required : List String) : ℚ :=
  let foundL := found.map pyLowerStrip
  let reqL := required.map pyLowerStrip
  let totalW := (reqL.map skillWeight).sum
  let matchedW := (reqL.map (fun s => skillWeight s * bestMatchFor fuzz foundL s)).sum
  (matchedW / totalW) * 100

/-- The boost block of compute_skill_match_score. -/
def boostCurve (score : ℚ) : ℚ :=
  if score ≥ 70 then min 95 (score * 1.10)
  else if score ≥ 50 then score * 1.15
  else if score ≥ 30 then score * 1.05
  else score

/-- EnhancedMLEngine.compute_skill_match_score: 100 for an empty
required list (and for zero total weight), otherwise the boosted
weighted ratio rounded to two decimals. -/
def mlSkillMatchScore (fuzz : Option (String → String → ℚ))
    (found required : List String) : ℚ :=
  match required with
  | [] => 100
  | _ :: _ =>
    let totalW := ((required.map pyLowerStrip).map skillWeight).sum
    if totalW = 0 then 100
    else pyRound2 (boostCurve (rawSkillScore fuzz found required))

/-- Contract of the external fuzzy ratio: rapidfuzz fuzz.ratio returns
a value in the 0 to 100 range; trivially satisfied when the import
failed. -/
def ratioOk : Option (String → String → ℚ) → Prop
  | none => True
  | some r => ∀ a b, 0 ≤ r a b ∧ r a b ≤ 100

/- Concrete skill lists used to probe the boosting stage: ten distinct
single-letter required skills, all of default weight 1.0 and outside
the synonym table. -/

def reqTen : List String :=
  ["a", "b", "c", "d", "e", "f", "g", "h", "i", "j"]

def foundSeven : List String :=
  ["a", "b", "c", "d", "e", "f", "g"]

def foundSixSub : List String :=
  ["a", "b", "c", "e", "f", "g", "xdx"]

/-
Scanners for the date-range and experience-statement regular
expressions of ExperienceExtractor and ResumeValidator, with Python
re.findall semantics: a match is attempted at each position from the
left; on success the captures are collected and scanning resumes after
the matched segment.  Every matcher below consumes at least one
character on success, and each concrete pattern is deterministic (at
every optional or starred element, taking the greedy choice can never
turn an overall failure into a success), so no backtracking is
needed.
-/

def digitVal (c : Char) : Nat := c.toNat - '0'.toNat

/-- Exactly four digit characters at the head (backslash-d 4). -/
def takeYear : List Char → Option (Nat × List Char)
  | a :: b :: c :: d :: rest =>
      if a.isDigit && b.isDigit && c.isDigit && d.isDigit then
        some (((digitVal a * 10 + digitVal b) * 10 + digitVal c) * 10 +
          digitVal d, rest)
      else none
  | _ => none

/-- Greedy backslash-s star. -/
def skipWs (l : List Char) : List Char := l.dropWhile isPySpace

/-- Backslash-s plus: at least one whitespace character. -/
def skipWs1 : List Char → Option (List Char)
  | c :: rest => if isPySpace c then some (rest.dropWhile isPySpace) else none
  | [] => none

/-- Literal word at the head; returns the rest on success. -/
def litAt (w : List Char) (l : List Char) : Option (List Char) :=
  match w, l with
  | [], l => some l
  | _ :: _, [] => none
  | a :: as, b :: bs => if a == b then litAt as bs else none

/-- First literal of the alternation matching at the head. -/
def altLit (ws : List (List Char)) (l : List Char) : Option (List Char) :=
  match ws with
  | [] => none
  | w :: rest =>
      match litAt w l with
      | some r => some r
      | none => altLit rest l

/-- The dash class of the extractor date patterns (hyphen, en dash,
em dash). -/
def isDashE (c : Char) : Bool := c == '-' || c == '–' || c == '—'

/-- The dash class of the validator experience patterns (hyphen,
en dash). -/
def isDashV (c : Char) : Bool := c == '-' || c == '–'

/-- Matcher for (4 digits) ws* dash ws* (4 digits). -/
def matchYearPair (dash : Char → Bool) (l : List Char) :
    Option ((Nat × Nat) × List Char) := do
  let (y1, r1) ← takeYear l
  match skipWs r1 with
  | c :: r2 =>
      if dash c then
        let (y2, r4) ← takeYear (skipWs r2)
        some ((y1, y2), r4)
      else none
  | [] => none

/-- Matcher for (4 digits) ws* dash ws* followed by one of the given
keywords. -/
def matchYearPresent (dash : Char → Bool) (kws : List String)
    (l : List Char) : Option (Nat × List Char) := do
  let (y1, r1) ← takeYear l
  match skipWs r1 with
  | c :: r2 =>
      if dash c then
        let r4 ← altLit (kws.map String.toList) (skipWs r2)
        some (y1, r4)
      else none
  | [] => none

def monthLits : List String :=
  ["jan", "feb", "mar", "apr", "may", "jun", "jul", "aug", "sep", "oct",
   "nov", "dec"]

/-- Month-name alternation, greedy letter star and at least one
whitespace. -/
def matchMonthLead (l : List Char) : Option (List Char) := do
  let r1 ← altLit (monthLits.map String.toList) l
  skipWs1 (r1.dropWhile (fun c => 'a' ≤ c && c ≤ 'z'))

/-- Matcher for month (yyyy) ws* dash ws* month (yyyy). -/
def matchMonthPair (l : List Char) : Option ((Nat × Nat) × List Char) := do
  let r1 ← matchMonthLead l
  let (y1, r2) ← takeYear r1
  match skipWs r2 with
  | c :: r3 =>
      if isDashE c then
        let r5 ← matchMonthLead (skipWs r3)
        let (y2, r6) ← takeYear r5
        some ((y1, y2), r6)
      else none
  | [] => none

/-- Matcher for month (yyyy) ws* dash ws* (present or current or
now). -/
def matchMonthPresent (l : List Char) : Option (Nat × List Char) := do
  let r1 ← matchMonthLead l
  let (y1, r2) ← takeYear r1
  match skipWs r2 with
  | c :: r3 =>
      if isDashE c then
        let r5 ← altLit (["present", "current", "now"].map String.toList)
          (skipWs r3)
        some (y1, r5)
      else none
  | [] => none

/-- The re.findall driver.  The fuel bounds the number of scan steps;
every matcher used consumes at least one character, so fuel equal to
the input length suffices. -/
def scanAll {α : Type} (m : List Char → Option (α × List Char)) :
    Nat → List Char → List α
  | 0, _ => []
  | _ + 1, [] => []
  | fuel + 1, c :: cs =>
      match m (c :: cs) with
      | some (a, rest) => a :: scanAll m fuel rest
      | none => scanAll m fuel cs

def findAll {α : Type} (m : List Char → Option (α × List Char))
    (l : List Char) : List α := scanAll m l.length l

/-
Experience extraction
(ExperienceExtractor.extract_years_of_experience and its helper
_calculate_from_date_ranges).  The current year of datetime.now enters
as a parameter.  The spaCy date-entity step of the source only logs
and falls through to the regex patterns, so it has no effect on the
result.
-/

/-- The four date_patterns of _calculate_from_date_ranges applied in
order to the lower-cased text, converted to (start, end) year pairs;
the present/current/now forms end at the current year. -/
def collectRanges (t : String) (cy : Nat) : List (Nat × Nat) :=
  let tl := (pyLower t).toList
  findAll (matchYearPair isDashE) tl ++
    (findAll (matchYearPresent isDashE ["present", "current", "now"]) tl).map
      (fun y => (y, cy)) ++
    findAll matchMonthPair tl ++
    (findAll matchMonthPresent tl).map (fun y => (y, cy))

/-- Validation of one range: 1980 <= start <= current_year,
start <= end <= current_year + 1, and duration positive and at most
50. -/
def validRange (cy : Nat) (p : Nat × Nat) : Bool :=
  1980 ≤ p.1 && p.1 ≤ cy && p.1 ≤ p.2 && p.2 ≤ cy + 1 &&
    0 < p.2 - p.1 && p.2 - p.1 ≤ 50

/-- The match loop of _calculate_from_date_ranges: the found_ranges
set (seen) deduplicates identical validated ranges while the durations
accumulate. -/
def calcLoop (cy : Nat) : List (Nat × Nat) → List (Nat × Nat) → Nat → Nat
  | [], _, acc => acc
  | p :: rest, seen, acc =>
      if validRange cy p then
        if p ∈ seen then calcLoop cy rest seen acc
        else calcLoop cy rest (p :: seen) (acc + (p.2 - p.1))
      else calcLoop cy rest seen acc

/-- Total experience from date ranges, an integer number of years
(round(total, 1) of the source is the identity on it). -/
def calcYearsNat (t : String) (cy : Nat) : Nat :=
  calcLoop cy (collectRanges t cy) [] 0

/-- _calculate_from_date_ranges as the float the source returns. -/
def calcFromDateRanges (t : String) (cy : Nat) : ℚ := (calcYearsNat t cy : ℚ)

/-- Identical-range deduplication keeping first occurrences, the
declarative counterpart of the found_ranges set of the source. -/
def dedupFirstAux : List (Nat × Nat) → List (Nat × Nat) → List (Nat × Nat)
  | [], _ => []
  | p :: rest, seen =>
      if p ∈ seen then dedupFirstAux rest seen
      else p :: dedupFirstAux rest (p :: seen)

def dedupFirst (l : List (Nat × Nat)) : List (Nat × Nat) := dedupFirstAux l []

/-- Nonempty digit run (backslash-d plus). -/
def takeDigits1 (l : List Char) : Option (List Char × List Char) :=
  let ds := l.takeWhile Char.isDigit
  if ds.isEmpty then none else some (ds, l.dropWhile Char.isDigit)

def digitsToNat (ds : List Char) : Nat :=
  ds.foldl (fun a c => a * 10 + digitVal c) 0

/-- The number capture of the experience patterns: digits with an
optional decimal part, as a rational. -/
def matchNum (l : List Char) : Option (ℚ × List Char) := do
  let (ds, r1) ← takeDigits1 l
  match r1 with
  | '.' :: r2 =>
      match takeDigits1 r2 with
      | some (fs, r3) =>
          some ((digitsToNat ds : ℚ) +
            (digitsToNat fs : ℚ) / (10 : ℚ) ^ fs.length, r3)
      | none => some ((digitsToNat ds : ℚ), r1)
  | _ => some ((digitsToNat ds : ℚ), r1)

/-- Optional single character. -/
def skipOpt (c : Char) : List Char → List Char
  | d :: rest => if d == c then rest else d :: rest
  | [] => []

/-- The word years with optional plural s. -/
def matchYearsWord (l : List Char) : Option (List Char) := do
  let r ← litAt "year".toList l
  some (skipOpt 's' r)

/-- The optional group (of followed by whitespace); when the group
fails the position is left unchanged. -/
def skipOfWs (l : List Char) : List Char :=
  match litAt "of".toList l with
  | some r =>
      match skipWs1 r with
      | some r2 => r2
      | none => l
  | none => l

/-- EXPERIENCE_PATTERNS entry 1: number ws* plus? ws* years?
ws+ (of ws+)? experience. -/
def matchExp1 (l : List Char) : Option (ℚ × List Char) := do
  let (n, r1) ← matchNum l
  let r4 := skipWs (skipOpt '+' (skipWs r1))
  let r5 ← matchYearsWord r4
  let r6 ← skipWs1 r5
  let r8 ← litAt "experience".toList (skipOfWs r6)
  some (n, r8)

/-- EXPERIENCE_PATTERNS entry 2: number plus? ws* years? ws+
experience. -/
def matchExp2 (l : List Char) : Option (ℚ × List Char) := do
  let (n, r1) ← matchNum l
  let r3 := skipWs (skipOpt '+' r1)
  let r4 ← matchYearsWord r3
  let r5 ← skipWs1 r4
  let r6 ← litAt "experience".toList r5
  some (n, r6)

/-- EXPERIENCE_PATTERNS entry 3: experience ws* colon? ws* number ws*
plus? ws* years?. -/
def matchExp3 (l : List Char) : Option (ℚ × List Char) := do
  let r1 ← litAt "experience".toList l
  let r4 := skipWs (skipOpt ':' (skipWs r1))
  let (n, r5) ← matchNum r4
  let r8 := skipWs (skipOpt '+' (skipWs r5))
  let r9 ← matchYearsWord r8
  some (n, r9)

/-- EXPERIENCE_PATTERNS entry 4: over ws+ number ws* years? ws+
(of ws+)? experience. -/
def matchExp4 (l : List Char) : Option (ℚ × List Char) := do
  let r1 ← litAt "over".toList l
  let r2 ← skipWs1 r1
  let (n, r3) ← matchNum r2
  let r5 ← matchYearsWord (skipWs r3)
  let r6 ← skipWs1 r5
  let r8 ← litAt "experience".toList (skipOfWs r6)
  some (n, r8)

/-- EXPERIENCE_PATTERNS entry 5: number ws* plus? ws* years? ws+
(in or with or using). -/
def matchExp5 (l : List Char) : Option (ℚ × List Char) := do
  let (n, r1) ← matchNum l
  let r4 := skipWs (skipOpt '+' (skipWs r1))
  let r5 ← matchYearsWord r4
  let r6 ← skipWs1 r5
  let r7 ← altLit (["in", "with", "using"].map String.toList) r6
  some (n, r7)

/-- All EXPERIENCE_PATTERNS findall results on the lower-cased text,
in pattern order. -/
def expStatementYears (t : String) : List ℚ :=
  let tl := (pyLower t).toList
  findAll matchExp1 tl ++ findAll matchExp2 tl ++ findAll matchExp3 tl ++
    findAll matchExp4 tl ++ findAll matchExp5 tl

/-- The sanity filter 0 < years <= 50 applied while collecting the
explicit statements. -/
def validExpYears (t : String) : List ℚ :=
  (expStatementYears t).filter (fun y => 0 < y && y ≤ 50)

/-- Python max over a list, none when empty. -/
def maxQ : List ℚ → Option ℚ
  | [] => none
  | a :: rest => some (rest.foldl max a)

/-- The seniority-keyword fallback chain of
extract_years_of_experience, on the lower-cased text. -/
def seniorityFallback (tl : String) : ℚ :=
  if hasSubS "senior" tl || hasSubS "sr." tl || hasSubS "sr " tl then 6
  else if hasSubS "lead" tl || hasSubS "principal" tl ||
    hasSubS "staff" tl then 8
  else if hasSubS "mid-level" tl || hasSubS "intermediate" tl then 4
  else if hasSubS "junior" tl || hasSubS "jr." tl then 2
  else 3

/-- ExperienceExtractor.extract_years_of_experience: empty text gives
0; then the date step, the explicit statements (maximum of the valid
matches), the keyword fallback and the absolute default 3.  The test
years_from_dates > 0 of the source is taken on the underlying
integer. -/
def extractYears (t : String) (cy : Nat) : ℚ :=
  if t = "" then 0
  else if 0 < calcYearsNat t cy then (calcYearsNat t cy : ℚ)
  else
    match maxQ (validExpYears t) with
    | some m => m
    | none => seniorityFallback (pyLower t)

/-
Resume validation (ResumeValidator.validate_resume).  The spaCy NER
entity counts and the email/phone regex results on the original text
are external inputs of the model: NerSignals carries the PERSON, ORG
and DATE counts together with the flag that the NER call returned
without exception, and the two contact booleans stand for the
re.search results of the email and phone patterns.
-/

structure NerSignals where
  person : Nat
  org : Nat
  date : Nat
  ok : Bool

/-- The section_keywords dict of ResumeValidator. -/
def sectionKeywordSets : List (String × List String) :=
  [("experience",
    ["experience", "work history", "employment", "professional experience",
     "work experience", "career history", "positions held"]),
   ("education",
    ["education", "academic", "qualifications", "degrees", "university",
     "college", "school", "certifications"]),
   ("skills",
    ["skills", "technical skills", "expertise", "competencies",
     "technologies", "proficiencies", "capabilities"]),
   ("summary",
    ["summary", "objective", "profile", "about me", "professional summary"]),
   ("projects", ["projects", "portfolio", "work samples"]),
   ("contact", ["contact", "email", "phone", "address", "location"])]

/-- Sections whose keyword set hits the lower-cased text. -/
def sectionsFound (tl : String) : List String :=
  sectionKeywordSets.filterMap
    (fun p => if p.2.any (fun k => hasSubS k tl) then some p.1 else none)

def sectionCount (t : String) : Nat := (sectionsFound (pyLower t)).length

/-- The resume_indicators list of ResumeValidator. -/
def resumeIndicators : List String :=
  ["resume", "curriculum vitae", "cv", "responsible for", "managed",
   "developed", "led", "collaborated", "achieved", "implemented",
   "years of experience", "bachelor", "master", "phd", "degree",
   "certification", "proficient", "expert", "skilled"]

/-- The non_resume_indicators list of ResumeValidator. -/
def nonResumeIndicators : List String :=
  ["recipe", "ingredients", "directions", "serves", "cooking",
   "invoice", "bill", "payment", "due date", "total amount",
   "article", "chapter", "abstract", "conclusion", "references",
   "terms and conditions", "privacy policy", "agreement",
   "product description", "user manual", "instruction",
   "once upon a time", "the end", "story"]

/-- The education_keywords list of check 5. -/
def educationKeywords : List String :=
  ["bachelor", "master", "phd", "degree", "university", "college",
   "b.tech", "m.tech", "b.sc", "m.sc"]

/-- Validator experience pattern 3: digits plus? ws* years? ws+
(of ws+)? experience. -/
def matchValYearsExp (l : List Char) : Option (Unit × List Char) := do
  let (_, r1) ← takeDigits1 l
  let r3 := skipWs (skipOpt '+' r1)
  let r4 ← matchYearsWord r3
  let r5 ← skipWs1 r4
  let r7 ← litAt "experience".toList (skipOfWs r5)
  some ((), r7)

/-- Check 4 of the validator: any of the three experience_patterns
matches the lower-cased text. -/
def hasExpMarkers (tl : String) : Bool :=
  let l := tl.toList
  !(findAll (matchYearPair isDashV) l).isEmpty ||
    !(findAll (matchYearPresent isDashV ["present", "current"]) l).isEmpty ||
    !(findAll matchValYearsExp l).isEmpty

/-- Check 5 of the validator. -/
def hasEduKeywords (tl : String) : Bool :=
  educationKeywords.any (fun k => hasSubS k tl)

/-- The signed confidence sum of checks 1 to 9 of validate_resume. -/
def confidencePoints (ner : NerSignals) (hasEmail hasPhone : Bool)
    (t : String) : ℤ :=
  let tl := pyLower t
  let wc := wordCount t
  let lenPts : ℤ := if wc < 200 then -20 else if 5000 < wc then -10 else 15
  let sc := (sectionsFound tl).length
  let secPts : ℤ := if 3 ≤ sc then 30 else if 2 ≤ sc then 15 else -20
  let contactPts : ℤ :=
    if hasEmail && hasPhone then 20
    else if hasEmail || hasPhone then 10
    else -15
  let expPts : ℤ := if hasExpMarkers tl then 20 else -10
  let eduPts : ℤ := if hasEduKeywords tl then 15 else 0
  let nerPts : ℤ :=
    if ner.ok then
      if 1 ≤ ner.person ∧ 2 ≤ ner.org ∧ 2 ≤ ner.date then 25
      else if 1 ≤ ner.person ∧ (1 ≤ ner.org ∨ 1 ≤ ner.date) then 10
      else -10
    else 0
  let posCount := (resumeIndicators.filter (fun k => hasSubS k tl)).length
  let posPts : ℤ := if 5 ≤ posCount then 15 else if 3 ≤ posCount then 5 else 0
  let negCount := (nonResumeIndicators.filter (fun k => hasSubS k tl)).length
  let negPts : ℤ := if 3 ≤ negCount then -30 else if 1 ≤ negCount then -10 else 0
  let linePts : ℤ := if lineCount t < 10 then -15 else 0
  lenPts + secPts + contactPts + expPts + eduPts + nerPts + posPts + negPts +
    linePts

/-- Check 10: the confidence clamped to the 0 to 100 range; the
decision and the returned confidence both use this value. -/
def clampedConfidence (ner : NerSignals) (hasEmail hasPhone : Bool)
    (t : String) : ℤ :=
  max 0 (min 100 (confidencePoints ner hasEmail hasPhone t))

/-- ResumeValidator.validate_resume: the is_resume verdict and the
returned confidence (round(x, 1) on an integer is the identity).
Empty or short text is rejected with confidence 0; otherwise the
verdict takes confidence at least 50, or at least 3 sections with
contact, or experience and education markers with contact. -/
def validateResume (ner : NerSignals) (hasEmail hasPhone : Bool)
    (t : String) : Bool × ℤ :=
  if pyStripLen t < 100 then (false, 0)
  else
    let conf := clampedConfidence ner hasEmail hasPhone t
    let verdict :=
      50 ≤ conf ∨
        (3 ≤ sectionCount t ∧ (hasEmail || hasPhone) = true) ∨
        (hasExpMarkers (pyLower t) = true ∧
          hasEduKeywords (pyLower t) = true ∧ (hasEmail || hasPhone) = true)
    (if verdict then true else false, conf)

/-- A ten-line text of more than 100 characters with exactly two
recognized sections (experience via the word experience, education via
the word university), a date range, five positive indicators and no
contact info. -/
def resumeLikeText : String :=
  "experience\n2018 - 2023\nuniversity\nmanaged\ndeveloped\nachieved\nimplemented\nresponsible for\nalpha beta gamma delta\nepsilon zeta eta theta"

/- Helper lemmas. -/

theorem roundHalfEven_le (q : ℚ) (n : ℤ) (h : q ≤ (n : ℚ)) :
    roundHalfEven q ≤ n := by
  unfold roundHalfEven
  have hfl : ⌊q⌋ ≤ n := by
    have := Int.floor_le_floor h
    simpa using this
  split
  · exact hfl
  · rename_i hr
    push_neg at hr
    by_cases heq : ⌊q⌋ = n
    · exfalso
      have hle : q - (⌊q⌋ : ℚ) ≤ 0 := by
        have hn : q ≤ ((⌊q⌋ : ℤ) : ℚ) := by rw [heq]; exact h
        linarith
      linarith
    · split
      · omega
      · split <;> omega

theorem le_roundHalfEven (q : ℚ) (n : ℤ) (h : (n : ℚ) ≤ q) :
    n ≤ roundHalfEven q := by
  unfold roundHalfEven
  have hfl : n ≤ ⌊q⌋ := Int.le_floor.mpr h
  split
  · exact hfl
  · split
    · omega
    · split <;> omega

theorem pyRound2_le (q : ℚ) (n : ℤ) (h : q ≤ (n : ℚ)) :
    pyRound2 q ≤ (n : ℚ) := by
  unfold pyRound2
  have h100 : q * 100 ≤ ((n * 100 : ℤ) : ℚ) := by push_cast; linarith
  have := roundHalfEven_le (q * 100) (n * 100) h100
  have hc : ((roundHalfEven (q * 100) : ℚ)) ≤ ((n * 100 : ℤ) : ℚ) := by
    exact_mod_cast this
  push_cast at hc
  linarith

theorem le_pyRound2 (q : ℚ) (n : ℤ) (h : (n : ℚ) ≤ q) :
    (n : ℚ) ≤ pyRound2 q := by
  unfold pyRound2
  have h100 : ((n * 100 : ℤ) : ℚ) ≤ q * 100 := by push_cast; linarith
  have := le_roundHalfEven (q * 100) (n * 100) h100
  have hc : ((n * 100 : ℤ) : ℚ) ≤ ((roundHalfEven (q * 100) : ℚ)) := by
    exact_mod_cast this
  push_cast at hc
  linarith

theorem pyRound2_min98_le (q : ℚ) : pyRound2 (min 98 q) ≤ 98 := by
  have h : (min 98 q : ℚ) ≤ ((98 : ℤ) : ℚ) := by
    push_cast
    exact min_le_left _ _
  have h2 := pyRound2_le (min 98 q) 98 h
  push_cast at h2
  exact h2

theorem foldl_max_le (l : List ℚ) (acc b : ℚ) (hacc : acc ≤ b)
    (h : ∀ x ∈ l, x ≤ b) : l.foldl max acc ≤ b := by
  induction l generalizing acc with
  | nil => simpa using hacc
  | cons a t ih =>
      simp only [List.foldl_cons]
      exact ih (max acc a) (max_le hacc (h a (by simp)))
        (fun x hx => h x (by simp [hx]))

theorem foldl_max_zero_or_ge (l : List ℚ) (acc : ℚ)
    (hl : ∀ x ∈ l, x = 0 ∨ 50 ≤ x) (hacc : acc = 0 ∨ 50 ≤ acc) :
    l.foldl max acc = 0 ∨ 50 ≤ l.foldl max acc := by
  induction l generalizing acc with
  | nil => simpa using hacc
  | cons a t ih =>
      simp only [List.foldl_cons]
      refine ih (max acc a) (fun x hx => hl x (List.mem_cons_of_mem a hx)) ?_
      rcases hl a (by simp) with ha0 | ha50
      · rcases hacc with h0 | h50
        · left
          rw [h0, ha0]
          exact max_self 0
        · right
          have := le_max_left acc a
          linarith
      · right
        have := le_max_right acc a
        linarith

theorem foldl_max_zero (l : List ℚ) (h : ∀ x ∈ l, x = 0) :
    l.foldl max 0 = 0 := by
  induction l with
  | nil => rfl
  | cons a t ih =>
      simp only [List.foldl_cons]
      rw [h a (by simp), max_self 0]
      exact ih (fun x hx => h x (by simp [hx]))

theorem foldl_foundStep_none (skill : String) (l : List String) (acc : ℚ) :
    l.foldl (foundStep none skill) acc =
      if l.any (fun f => hasSubS skill f || hasSubS f skill) then max acc 0.85
      else acc := by
  induction l generalizing acc with
  | nil => simp
  | cons a t ih =>
      simp only [List.foldl_cons, List.any_cons]
      by_cases h : (hasSubS skill a || hasSubS a skill) = true
      · rw [show foundStep none skill acc a = max acc 0.85 from by
          unfold foundStep; rw [if_pos h], ih]
        simp only [h, Bool.true_or, if_pos]
        by_cases h2 : t.any (fun f => hasSubS skill f || hasSubS f skill) = true
        · rw [if_pos h2, max_assoc, max_self]
        · rw [if_neg h2]
      · rw [show foundStep none skill acc a = acc from by
          unfold foundStep; rw [if_neg h], ih]
        simp only [Bool.not_eq_true] at h
        simp [h]

theorem foldl_dict_ge (k : String) :
    ∀ (l : List (String × ℚ)) (acc : Option ℚ),
      (∀ p ∈ l, 1 ≤ p.2) → (∀ v, acc = some v → 1 ≤ v) →
      1 ≤ (l.foldl (fun acc p => if p.1 == k then some p.2 else acc) acc).getD 1
  | [], acc, _, hacc => by
      cases acc with
      | none => simp
      | some v => simpa using hacc v rfl
  | p :: t, acc, hl, hacc => by
      simp only [List.foldl_cons]
      refine foldl_dict_ge k t _ (fun q hq => hl q (List.mem_cons_of_mem p hq)) ?_
      intro v hv
      by_cases hk : (p.1 == k) = true
      · rw [if_pos hk] at hv
        simp only [Option.some.injEq] at hv
        rw [← hv]
        exact hl p (List.mem_cons_self p t)
      · rw [if_neg hk] at hv
        exact hacc v hv

theorem skillWeight_ge_one (s : String) : 1 ≤ skillWeight s := by
  unfold skillWeight dictGet
  refine foldl_dict_ge s skillWeightsTable none ?_ (by simp)
  intro p hp
  fin_cases hp <;> norm_num

theorem sum_weights_pos (l : List String) (h : l ≠ []) :
    0 < (l.map skillWeight).sum := by
  cases l with
  | nil => exact absurd rfl h
  | cons a t =>
      simp only [List.map_cons, List.sum_cons]
      have h1 := skillWeight_ge_one a
      have h2 : 0 ≤ (t.map skillWeight).sum := by
        refine List.sum_nonneg ?_
        intro x hx
        rcases List.mem_map.mp hx with ⟨s, _, rfl⟩
        have := skillWeight_ge_one s
        linarith
      linarith

theorem foundStep_bounds (fuzz : Option (String → String → ℚ))
    (hf : ratioOk fuzz) (skill f : String) (acc : ℚ)
    (h0 : 0 ≤ acc) (h1 : acc ≤ 1) :
    0 ≤ foundStep fuzz skill acc f ∧ foundStep fuzz skill acc f ≤ 1 := by
  have hacc1 : 0 ≤ (if hasSubS skill f || hasSubS f skill then max acc 0.85 else acc) ∧
      (if hasSubS skill f || hasSubS f skill then max acc 0.85 else acc) ≤ 1 := by
    split
    · exact ⟨le_trans h0 (le_max_left _ _), max_le h1 (by norm_num)⟩
    · exact ⟨h0, h1⟩
  unfold foundStep
  cases fuzz with
  | none => exact hacc1
  | some rf =>
      simp only [ratioOk] at hf
      rcases hf skill f with ⟨hr0, hr1⟩
      dsimp only
      split
      · split
        · constructor
          · exact le_trans hacc1.1 (le_max_left _ _)
          · refine max_le hacc1.2 ?_
            have hd : rf skill f / 100 ≤ 1 := by
              rw [div_le_one (by norm_num : (0:ℚ) < 100)]
              linarith
            nlinarith
        · exact hacc1
      · exact hacc1

theorem foldl_foundStep_bounds (fuzz : Option (String → String → ℚ))
    (hf : ratioOk fuzz) (skill : String) (l : List String) (acc : ℚ)
    (h0 : 0 ≤ acc) (h1 : acc ≤ 1) :
    0 ≤ l.foldl (foundStep fuzz skill) acc ∧
      l.foldl (foundStep fuzz skill) acc ≤ 1 := by
  induction l generalizing acc with
  | nil => exact ⟨h0, h1⟩
  | cons a t ih =>
      simp only [List.foldl_cons]
      have hstep := foundStep_bounds fuzz hf skill a acc h0 h1
      exact ih _ hstep.1 hstep.2

theorem bestMatchFor_bounds (fuzz : Option (String → String → ℚ))
    (hf : ratioOk fuzz) (foundL : List String) (skill : String) :
    0 ≤ bestMatchFor fuzz foundL skill ∧ bestMatchFor fuzz foundL skill ≤ 1 := by
  unfold bestMatchFor
  split
  · norm_num
  · refine foldl_foundStep_bounds fuzz hf skill foundL _ ?_ ?_
    · split <;> norm_num
    · split <;> norm_num

theorem matched_le_total (fuzz : Option (String → String → ℚ))
    (hf : ratioOk fuzz) (foundL reqL : List String) :
    0 ≤ (reqL.map (fun s => skillWeight s * bestMatchFor fuzz foundL s)).sum ∧
      (reqL.map (fun s => skillWeight s * bestMatchFor fuzz foundL s)).sum ≤
        (reqL.map skillWeight).sum := by
  induction reqL with
  | nil => simp
  | cons a t ih =>
      simp only [List.map_cons, List.sum_cons]
      have hw := skillWeight_ge_one a
      have hb := bestMatchFor_bounds fuzz hf foundL a
      constructor
      · have : 0 ≤ skillWeight a * bestMatchFor fuzz foundL a :=
          mul_nonneg (by linarith) hb.1
        linarith [ih.1]
      · have : skillWeight a * bestMatchFor fuzz foundL a ≤ skillWeight a :=
          mul_le_of_le_one_right (by linarith) hb.2
        linarith [ih.2]

theorem rawSkillScore_bounds (fuzz : Option (String → String → ℚ))
    (hf : ratioOk fuzz) (found : List String) (a : String) (t : List String) :
    0 ≤ rawSkillScore fuzz found (a :: t) ∧
      rawSkillScore fuzz found (a :: t) ≤ 100 := by
  unfold rawSkillScore
  have htot : 0 < (((a :: t).map pyLowerStrip).map skillWeight).sum :=
    sum_weights_pos _ (by simp)
  have hm := matched_le_total fuzz hf (found.map pyLowerStrip)
    ((a :: t).map pyLowerStrip)
  constructor
  · have := div_nonneg hm.1 (le_of_lt htot)
    linarith
  · have hdiv : (((a :: t).map pyLowerStrip).map
        (fun s => skillWeight s * bestMatchFor fuzz (found.map pyLowerStrip) s)).sum /
        (((a :: t).map pyLowerStrip).map skillWeight).sum ≤ 1 :=
      (div_le_one htot).mpr hm.2
    linarith

theorem boostCurve_bounds (s : ℚ) (h0 : 0 ≤ s) (h1 : s ≤ 100) :
    0 ≤ boostCurve s ∧ boostCurve s ≤ 100 := by
  unfold boostCurve
  split_ifs with hA hB hC
  · exact ⟨le_min (by norm_num) (by linarith),
      le_trans (min_le_left _ _) (by norm_num)⟩
  · constructor <;> linarith
  · constructor <;> linarith
  · exact ⟨h0, h1⟩

theorem mlSkillMatchScore_cons (fuzz : Option (String → String → ℚ))
    (found : List String) (a : String) (t : List String) :
    mlSkillMatchScore fuzz found (a :: t) =
      pyRound2 (boostCurve (rawSkillScore fuzz found (a :: t))) := by
  simp only [mlSkillMatchScore]
  rw [if_neg (sum_weights_pos ((a :: t).map pyLowerStrip) (by simp)).ne']

theorem ratioOk_none : ratioOk none := trivial

theorem validateResume_fst (ner : NerSignals) (he hp : Bool) (t : String)
    (h : ¬ pyStripLen t < 100) :
    (validateResume ner he hp t).1 = true ↔
      (50 ≤ clampedConfidence ner he hp t ∨
        (3 ≤ sectionCount t ∧ (he || hp) = true) ∨
        (hasExpMarkers (pyLower t) = true ∧ hasEduKeywords (pyLower t) = true ∧
          (he || hp) = true)) := by
  unfold validateResume
  rw [if_neg h]
  dsimp only
  split
  · rename_i hv
    simpa using hv
  · rename_i hv
    simpa using hv

theorem calcLoop_eq (cy : Nat) :
    ∀ (l seen : List (Nat × Nat)) (acc : Nat),
      calcLoop cy l seen acc =
        acc + ((dedupFirstAux (l.filter (validRange cy)) seen).map
          (fun p => p.2 - p.1)).sum
  | [], seen, acc => by simp [calcLoop, dedupFirstAux]
  | p :: rest, seen, acc => by
      simp only [calcLoop, List.filter_cons]
      by_cases hv : validRange cy p = true
      · simp only [hv, if_true]
        by_cases hm : p ∈ seen
        · rw [if_pos hm, calcLoop_eq cy rest seen acc]
          simp only [dedupFirstAux, if_pos hm]
        · rw [if_neg hm, calcLoop_eq cy rest (p :: seen) (acc + (p.2 - p.1))]
          simp only [dedupFirstAux, if_neg hm, List.map_cons, List.sum_cons]
          omega
      · simp only [Bool.not_eq_true] at hv
        simp only [hv, Bool.false_eq_true, if_false]
        exact calcLoop_eq cy rest seen acc

theorem entryScore_cases (e : EduItem) :
    entryScore e = 0 ∨ (50 ≤ entryScore e ∧ entryScore e ≤ 100) := by
  unfold entryScore
  cases hf : educationWeights.find?
      (fun p => hasSubS p.1 (pyLower (eduText e))) with
  | none => left; rfl
  | some p =>
      right
      have hp : p ∈ educationWeights := List.mem_of_find?_eq_some hf
      fin_cases hp <;> norm_num

/-- Counterexample to claim C2: the boosting stage of
compute_skill_match_score is not monotonic.  Seven exact matches out of
ten give a raw score of 70 and final score min(95, 77) = 77, while six
exact matches plus one substring match give the strictly smaller raw
score 68.5 but a strictly larger final score, because the 1.15
multiplier of the 50-to-70 band overtakes the 1.10 multiplier applied
at 70. -/
theorem claim2_counterexample :
    (137 / 2 : ℚ) < 70 ∧ boostCurve 70 < boostCurve (137 / 2) ∧
    rawSkillScore none foundSixSub reqTen < rawSkillScore none foundSeven reqTen ∧
    mlSkillMatchScore none foundSeven reqTen = 77 ∧
    mlSkillMatchScore none foundSeven reqTen <
      mlSkillMatchScore none foundSixSub reqTen := by
  have hd : bestMatchFor none foundSixSub "d" = 0.85 := by
    simp only [bestMatchFor]
    rw [foldl_foundStep_none]
    rw [if_neg (by decide), if_pos (by decide), if_neg (by decide)]
    norm_num
  have hraw7 : rawSkillScore none foundSeven reqTen = 70 := by
    simp only [rawSkillScore,
      show foundSeven.map pyLowerStrip = foundSeven from by decide,
      show pyLowerStrip "a" = "a" from by decide,
      show pyLowerStrip "b" = "b" from by decide,
      show pyLowerStrip "c" = "c" from by decide,
      show pyLowerStrip "d" = "d" from by decide,
      show pyLowerStrip "e" = "e" from by decide,
      show pyLowerStrip "f" = "f" from by decide,
      show pyLowerStrip "g" = "g" from by decide,
      show pyLowerStrip "h" = "h" from by decide,
      show pyLowerStrip "i" = "i" from by decide,
      show pyLowerStrip "j" = "j" from by decide,
      reqTen, List.map_cons, List.map_nil, List.sum_cons, List.sum_nil,
      show skillWeight "a" = 1 from by decide,
      show skillWeight "b" = 1 from by decide,
      show skillWeight "c" = 1 from by decide,
      show skillWeight "d" = 1 from by decide,
      show skillWeight "e" = 1 from by decide,
      show skillWeight "f" = 1 from by decide,
      show skillWeight "g" = 1 from by decide,
      show skillWeight "h" = 1 from by decide,
      show skillWeight "i" = 1 from by decide,
      show skillWeight "j" = 1 from by decide,
      show bestMatchFor none foundSeven "a" = 1 from by decide,
      show bestMatchFor none foundSeven "b" = 1 from by decide,
      show bestMatchFor none foundSeven "c" = 1 from by decide,
      show bestMatchFor none foundSeven "d" = 1 from by decide,
      show bestMatchFor none foundSeven "e" = 1 from by decide,
      show bestMatchFor none foundSeven "f" = 1 from by decide,
      show bestMatchFor none foundSeven "g" = 1 from by decide,
      show bestMatchFor none foundSeven "h" = 0 from by decide,
      show bestMatchFor none foundSeven "i" = 0 from by decide,
      show bestMatchFor none foundSeven "j" = 0 from by decide]
    norm_num
  have hraw6 : rawSkillScore none foundSixSub reqTen = 68.5 := by
    simp only [rawSkillScore,
      show foundSixSub.map pyLowerStrip = foundSixSub from by decide,
      show pyLowerStrip "a" = "a" from by decide,
      show pyLowerStrip "b" = "b" from by decide,
      show pyLowerStrip "c" = "c" from by decide,
      show pyLowerStrip "d" = "d" from by decide,
      show pyLowerStrip "e" = "e" from by decide,
      show pyLowerStrip "f" = "f" from by decide,
      show pyLowerStrip "g" = "g" from by decide,
      show pyLowerStrip "h" = "h" from by decide,
      show pyLowerStrip "i" = "i" from by decide,
      show pyLowerStrip "j" = "j" from by decide,
      reqTen, List.map_cons, List.map_nil, List.sum_cons, List.sum_nil,
      show skillWeight "a" = 1 from by decide,
      show skillWeight "b" = 1 from by decide,
      show skillWeight "c" = 1 from by decide,
      show skillWeight "d" = 1 from by decide,
      show skillWeight "e" = 1 from by decide,
      show skillWeight "f" = 1 from by decide,
      show skillWeight "g" = 1 from by decide,
      show skillWeight "h" = 1 from by decide,
      show skillWeight "i" = 1 from by decide,
      show skillWeight "j" = 1 from by decide,
      show bestMatchFor none foundSixSub "a" = 1 from by decide,
      show bestMatchFor none foundSixSub "b" = 1 from by decide,
      show bestMatchFor none foundSixSub "c" = 1 from by decide, hd,
      show bestMatchFor none foundSixSub "e" = 1 from by decide,
      show bestMatchFor none foundSixSub "f" = 1 from by decide,
      show bestMatchFor none foundSixSub "g" = 1 from by decide,
      show bestMatchFor none foundSixSub "h" = 0 from by decide,
      show bestMatchFor none foundSixSub "i" = 0 from by decide,
      show bestMatchFor none foundSixSub "j" = 0 from by decide]
    norm_num
  have h7 : mlSkillMatchScore none foundSeven reqTen = 77 := by
    rw [show mlSkillMatchScore none foundSeven reqTen =
        pyRound2 (boostCurve (rawSkillScore none foundSeven reqTen)) from
      mlSkillMatchScore_cons none foundSeven "a"
        ["b", "c", "d", "e", "f", "g", "h", "i", "j"]]
    rw [hraw7]
    rw [show boostCurve 70 = 77 from by norm_num [boostCurve, min_def]]
    unfold pyRound2 roundHalfEven
    norm_num
  have h6 : mlSkillMatchScore none foundSixSub reqTen = 78.78 := by
    rw [show mlSkillMatchScore none foundSixSub reqTen =
        pyRound2 (boostCurve (rawSkillScore none foundSixSub reqTen)) from
      mlSkillMatchScore_cons none foundSixSub "a"
        ["b", "c", "d", "e", "f", "g", "h", "i", "j"]]
    rw [hraw6]
    rw [show boostCurve 68.5 = 78.775 from by norm_num [boostCurve]]
    unfold pyRound2 roundHalfEven
    norm_num [Int.floor_eq_iff]
  refine ⟨by norm_num, ?_, ?_, h7, ?_⟩
  · norm_num [boostCurve, min_def]
  · rw [hraw6, hraw7]
    norm_num
  · rw [h6, h7]
    norm_num

/-- Claim C2 (amended): for a non-empty required list,
compute_skill_match_score equals the weighted ratio scaled to 100,
passed through the piecewise boosting curve (which is not monotonic at
the 70 boundary) and rounded to two decimals; required skills python
and aws both exact-matched return min(95, 110) = 95. -/
theorem claim2_skill_boost_amended :
    (∀ (fuzz : Option (String → String → ℚ)) (found : List String)
      (a : String) (t : List String),
      mlSkillMatchScore fuzz found (a :: t) =
        pyRound2 (boostCurve (rawSkillScore fuzz found (a :: t)))) ∧
    mlSkillMatchScore none ["python", "aws"] ["python", "aws"] = 95 := by
  constructor
  · exact mlSkillMatchScore_cons
  · have h1 : (["python", "aws"].map pyLowerStrip) = ["python", "aws"] := by
      decide
    have h2 : skillWeight "python" = 1.5 := by
      simp [skillWeight, dictGet, skillWeightsTable]
    have h3 : skillWeight "aws" = 1.3 := by
      simp [skillWeight, dictGet, skillWeightsTable]
    have h4 : bestMatchFor none ["python", "aws"] "python" = 1 := by decide
    have h5 : bestMatchFor none ["python", "aws"] "aws" = 1 := by decide
    simp only [mlSkillMatchScore, rawSkillScore, boostCurve, h1,
      List.map_cons, List.map_nil, List.sum_cons, List.sum_nil,
      h2, h3, h4, h5]
    norm_num [pyRound2, roundHalfEven, min_def]

/-- Claim C7: compute_skill_match_score returns exactly 100 for an
empty required list, and stays within the 0 to 100 range for every
found set and required list, given the ratio contract of the external
fuzzy matcher. -/
theorem claim7_skill_score_range :
    (∀ (fuzz : Option (String → String → ℚ)) (found : List String),
      mlSkillMatchScore fuzz found [] = 100) ∧
    (∀ (fuzz : Option (String → String → ℚ)) (found required : List String),
      ratioOk fuzz →
      0 ≤ mlSkillMatchScore fuzz found required ∧
        mlSkillMatchScore fuzz found required ≤ 100) := by
  constructor
  · intro fuzz found
    rfl
  · intro fuzz found required hf
    cases required with
    | nil =>
        constructor <;> norm_num [mlSkillMatchScore]
    | cons a t =>
        rw [mlSkillMatchScore_cons]
        have hraw := rawSkillScore_bounds fuzz hf found a t
        have hboost := boostCurve_bounds _ hraw.1 hraw.2
        constructor
        · have h := le_pyRound2 (boostCurve (rawSkillScore fuzz found (a :: t)))
            0 (by push_cast; exact hboost.1)
          push_cast at h
          exact h
        · have h := pyRound2_le (boostCurve (rawSkillScore fuzz found (a :: t)))
            100 (by push_cast; exact hboost.2)
          push_cast at h
          exact h

/-- Witness for claim C7 at fuzz absent, a singleton found set and a
singleton required list. -/
theorem claim7_skill_score_range_witness :
    mlSkillMatchScore none ["x"] [] = 100 ∧
    (0 ≤ mlSkillMatchScore none ["x"] ["python"] ∧
      mlSkillMatchScore none ["x"] ["python"] ≤ 100) :=
  ⟨claim7_skill_score_range.1 none ["x"],
   claim7_skill_score_range.2 none ["x"] ["python"] ratioOk_none⟩

/-- Claim C1: compute_semantic_similarity applies the five-segment
piecewise-linear recalibration to the combined raw score x, with the
result clamped to the 0 to 100 range; a combined score of exactly 55
yields 85 and a combined score of exactly 10 yields 15. -/
theorem claim1_semantic_calibration :
    (∀ x : ℚ,
      (0 ≤ x → x < 10 →
        computeSemanticSimilarity x = max 0 (min 100 (x * 1.5))) ∧
      (10 ≤ x → x < 25 →
        computeSemanticSimilarity x = max 0 (min 100 (15 + (x - 10) * 1.67))) ∧
      (25 ≤ x → x < 40 →
        computeSemanticSimilarity x = max 0 (min 100 (40 + (x - 25) * 1.67))) ∧
      (40 ≤ x → x < 55 →
        computeSemanticSimilarity x = max 0 (min 100 (65 + (x - 40) * 1.33))) ∧
      (55 ≤ x →
        computeSemanticSimilarity x = max 0 (min 100 (85 + (x - 55) * 0.29)))) ∧
    computeSemanticSimilarity 55 = 85 ∧ computeSemanticSimilarity 10 = 15 := by
  refine ⟨fun x => ⟨?_, ?_, ?_, ?_, ?_⟩, ?_, ?_⟩
  · intro _ h1
    unfold computeSemanticSimilarity semCalibrated
    rw [if_pos h1]
  · intro h0 h1
    unfold computeSemanticSimilarity semCalibrated
    rw [if_neg (by linarith), if_pos h1]
  · intro h0 h1
    unfold computeSemanticSimilarity semCalibrated
    rw [if_neg (by linarith), if_neg (by linarith), if_pos h1]
  · intro h0 h1
    unfold computeSemanticSimilarity semCalibrated
    rw [if_neg (by linarith), if_neg (by linarith), if_neg (by linarith),
      if_pos h1]
  · intro h0
    unfold computeSemanticSimilarity semCalibrated
    rw [if_neg (by linarith), if_neg (by linarith), if_neg (by linarith),
      if_neg (by linarith)]
  · norm_num [computeSemanticSimilarity, semCalibrated, min_def, max_def]
  · norm_num [computeSemanticSimilarity, semCalibrated, min_def, max_def]

/-- Witness for claim C1: the first segment instantiated at a combined
score of 7. -/
theorem claim1_semantic_calibration_witness :
    computeSemanticSimilarity 7 = max 0 (min 100 (7 * 1.5)) :=
  (claim1_semantic_calibration.1 7).1 (by norm_num) (by norm_num)

/-- Claim C3: calculate_final_score combines the four component scores
with the configured weights, applies the final piecewise calibration,
rounds to two decimals, and never exceeds 98; with all components 100
(raw weighted sum 100) the result is 95. -/
theorem claim3_final_score_cap :
    (∀ semantic skill exper edu : ℚ,
      calculateFinalScore semantic skill exper edu ≤ 98) ∧
    calculateFinalScore 100 100 100 100 = 95 := by
  constructor
  · intro s k e d
    unfold calculateFinalScore
    exact pyRound2_min98_le _
  · unfold calculateFinalScore
    norm_num [SEMANTIC_SCORE_WEIGHT, SKILL_MATCH_WEIGHT, EXPERIENCE_WEIGHT,
      EDUCATION_WEIGHT, pyRound2, roundHalfEven, min_def]

/-- Claim C9: classify_seniority_level maps every nonnegative years
value to exactly one of the five tiers and is monotonically
non-decreasing in years under the tier order. -/
theorem claim9_seniority_monotone :
    (∀ y : ℚ, 0 ≤ y → classifySeniorityLevel y ∈ seniorityTiers) ∧
    (∀ y1 y2 : ℚ, 0 ≤ y1 → y1 ≤ y2 →
      tierIdx (classifySeniorityLevel y1) ≤ tierIdx (classifySeniorityLevel y2)) := by
  constructor
  · intro y _
    unfold classifySeniorityLevel
    split_ifs <;> simp [seniorityTiers]
  · intro y1 y2 _ h12
    unfold classifySeniorityLevel
    split_ifs <;> simp [tierIdx] <;> linarith

/-- Witness for claim C9 at concrete years values. -/
theorem claim9_seniority_monotone_witness :
    classifySeniorityLevel 4 ∈ seniorityTiers ∧
    tierIdx (classifySeniorityLevel 2) ≤ tierIdx (classifySeniorityLevel 6) :=
  ⟨claim9_seniority_monotone.1 4 (by norm_num),
   claim9_seniority_monotone.2 2 6 (by norm_num) (by norm_num)⟩

/-- Claim C10: compute_education_score always lies in the 50 to 100
range; the empty list scores the default 50, and a list none of whose
entries contains a recognized degree keyword also scores 50, so the
education component never falls below the no-degree baseline. -/
theorem claim10_education_floor :
    ∀ l : List EduItem,
      (50 ≤ computeEducationScore l ∧ computeEducationScore l ≤ 100) ∧
      (l = [] → computeEducationScore l = 50) ∧
      ((∀ e ∈ l, ∀ p ∈ educationWeights,
          hasSubS p.1 (pyLower (eduText e)) = false) →
        computeEducationScore l = 50) := by
  intro l
  refine ⟨?_, ?_, ?_⟩
  · cases l with
    | nil => norm_num [computeEducationScore]
    | cons a t =>
        simp only [computeEducationScore]
        have hub : ((a :: t).map entryScore).foldl max 0 ≤ 100 := by
          refine foldl_max_le _ 0 100 (by norm_num) ?_
          intro x hx
          rcases List.mem_map.mp hx with ⟨e, _, rfl⟩
          rcases entryScore_cases e with h0 | ⟨_, h100⟩
          · rw [h0]; norm_num
          · exact h100
        have hzg : ((a :: t).map entryScore).foldl max 0 = 0 ∨
            50 ≤ ((a :: t).map entryScore).foldl max 0 := by
          refine foldl_max_zero_or_ge _ 0 ?_ (Or.inl rfl)
          intro x hx
          rcases List.mem_map.mp hx with ⟨e, _, rfl⟩
          rcases entryScore_cases e with h0 | ⟨h50, _⟩
          · exact Or.inl h0
          · exact Or.inr h50
        by_cases hpos : 0 < ((a :: t).map entryScore).foldl max 0
        · rw [if_pos hpos]
          constructor
          · rcases hzg with h0 | h50
            · linarith
            · exact h50
          · exact hub
        · rw [if_neg hpos]
          norm_num
  · intro h
    subst h
    rfl
  · intro h
    cases l with
    | nil => rfl
    | cons a t =>
        simp only [computeEducationScore]
        have hz : ((a :: t).map entryScore).foldl max 0 = 0 := by
          refine foldl_max_zero _ ?_
          intro x hx
          rcases List.mem_map.mp hx with ⟨e, he, rfl⟩
          unfold entryScore
          rw [List.find?_eq_none.mpr]
          intro p hp
          rw [h e he p hp]
          simp
        rw [hz]
        norm_num

/-- Claim C4: validate_resume rejects every text shorter than 100
trimmed characters with confidence 0, and for every longer text the
verdict is exactly the three-way disjunction over the clamped
confidence, the section count with contact, and the experience,
education and contact markers. -/
theorem claim4_validator_verdict :
    (∀ (ner : NerSignals) (hasEmail hasPhone : Bool) (t : String),
      pyStripLen t < 100 →
      validateResume ner hasEmail hasPhone t = (false, 0)) ∧
    (∀ (ner : NerSignals) (hasEmail hasPhone : Bool) (t : String),
      100 ≤ pyStripLen t →
      ((validateResume ner hasEmail hasPhone t).1 = true ↔
        (50 ≤ clampedConfidence ner hasEmail hasPhone t ∨
          (3 ≤ sectionCount t ∧ (hasEmail || hasPhone) = true) ∨
          (hasExpMarkers (pyLower t) = true ∧
            hasEduKeywords (pyLower t) = true ∧
            (hasEmail || hasPhone) = true)))) := by
  constructor
  · intro ner he hp t h
    unfold validateResume
    rw [if_pos h]
  · intro ner he hp t h
    exact validateResume_fst ner he hp t (by omega)

/-- Witness for claim C4: the short branch at a nine-character text
and the verdict equivalence at a long concrete text. -/
theorem claim4_validator_verdict_witness :
    (pyStripLen "too short" < 100 ∧
      validateResume ⟨0, 0, 0, false⟩ false false "too short" = (false, 0)) ∧
    (100 ≤ pyStripLen resumeLikeText ∧
      ((validateResume ⟨1, 2, 2, true⟩ true false resumeLikeText).1 = true ↔
        (50 ≤ clampedConfidence ⟨1, 2, 2, true⟩ true false resumeLikeText ∨
          (3 ≤ sectionCount resumeLikeText ∧ (true || false) = true) ∨
          (hasExpMarkers (pyLower resumeLikeText) = true ∧
            hasEduKeywords (pyLower resumeLikeText) = true ∧
            (true || false) = true)))) :=
  ⟨⟨by decide,
    claim4_validator_verdict.1 ⟨0, 0, 0, false⟩ false false "too short"
      (by decide)⟩,
   ⟨by decide,
    claim4_validator_verdict.2 ⟨1, 2, 2, true⟩ true false resumeLikeText
      (by decide)⟩⟩

/-- Counterexample to claim C8: a text of more than 100 trimmed
characters with exactly 2 sections found and no contact info whose
confidence is 55 (short length -20, two sections +15, no contact -15,
experience dates +20, education keyword +15, strong NER +25, five
positive indicators +15, ten lines 0), so the validator accepts it
rather than rejecting with confidence at most 0. -/
theorem claim8_counterexample :
    100 ≤ pyStripLen resumeLikeText ∧
    sectionCount resumeLikeText = 2 ∧
    clampedConfidence ⟨1, 2, 2, true⟩ false false resumeLikeText = 55 ∧
    (validateResume ⟨1, 2, 2, true⟩ false false resumeLikeText).1 = true := by
  refine ⟨by decide, by decide, by decide, by decide⟩

/-- Claim C8 (amended): with no contact info the second and third
acceptance disjuncts cannot hold, so for every text of at least 100
trimmed characters without email or phone the verdict is exactly the
test that the clamped confidence reaches 50; two found sections alone
do not force the confidence to 0. -/
theorem claim8_no_contact_amended :
    ∀ (ner : NerSignals) (t : String),
      100 ≤ pyStripLen t →
      ((validateResume ner false false t).1 = true ↔
        50 ≤ clampedConfidence ner false false t) := by
  intro ner t h
  rw [validateResume_fst ner false false t (by omega)]
  simp

/-- Witness for the amended claim C8 at a concrete text. -/
theorem claim8_no_contact_amended_witness :
    (validateResume ⟨1, 2, 2, true⟩ false false resumeLikeText).1 = true ↔
      50 ≤ clampedConfidence ⟨1, 2, 2, true⟩ false false resumeLikeText :=
  claim8_no_contact_amended ⟨1, 2, 2, true⟩ resumeLikeText (by decide)

/-- Counterexample to claim C5: the text intermediate developer yields
no date ranges and no explicit statements and contains none of the six
keywords listed in the claim (senior, lead, principal, staff,
mid-level, junior), yet extract_years_of_experience returns 4 and not
the default 3, because the fallback also recognizes the keyword
intermediate. -/
theorem claim5_counterexample :
    calcYearsNat "intermediate developer" 2025 = 0 ∧
    validExpYears "intermediate developer" = [] ∧
    hasSubS "senior" "intermediate developer" = false ∧
    hasSubS "lead" "intermediate developer" = false ∧
    hasSubS "principal" "intermediate developer" = false ∧
    hasSubS "staff" "intermediate developer" = false ∧
    hasSubS "mid-level" "intermediate developer" = false ∧
    hasSubS "junior" "intermediate developer" = false ∧
    extractYears "intermediate developer" 2025 = 4 := by
  refine ⟨by decide, by decide, by decide, by decide, by decide, by decide,
    by decide, by decide, by decide⟩

/-- Claim C5 (amended): for every non-empty text in which the date
step yields zero, no experience statement parses to a valid year, and
none of the fallback keywords or their variants occur (senior, sr.,
sr followed by a space, lead, principal, staff, mid-level,
intermediate, junior, jr.), extract_years_of_experience returns the
absolute default 3. -/
theorem claim5_default_years_amended :
    ∀ (t : String) (cy : Nat),
      t ≠ "" → calcYearsNat t cy = 0 → validExpYears t = [] →
      hasSubS "senior" (pyLower t) = false →
      hasSubS "sr." (pyLower t) = false →
      hasSubS "sr " (pyLower t) = false →
      hasSubS "lead" (pyLower t) = false →
      hasSubS "principal" (pyLower t) = false →
      hasSubS "staff" (pyLower t) = false →
      hasSubS "mid-level" (pyLower t) = false →
      hasSubS "intermediate" (pyLower t) = false →
      hasSubS "junior" (pyLower t) = false →
      hasSubS "jr." (pyLower t) = false →
      extractYears t cy = 3 := by
  intro t cy ht hd hs k1 k2 k3 k4 k5 k6 k7 k8 k9 k10
  unfold extractYears
  rw [if_neg ht, if_neg (by omega), hs]
  show seniorityFallback (pyLower t) = 3
  unfold seniorityFallback
  rw [if_neg (by simp [k1, k2, k3]), if_neg (by simp [k4, k5, k6]),
    if_neg (by simp [k7, k8]), if_neg (by simp [k9, k10])]

/-- Witness for the amended claim C5 at a keyword-free text. -/
theorem claim5_default_years_amended_witness :
    extractYears "a plain note about gardening" 2025 = 3 :=
  claim5_default_years_amended "a plain note about gardening" 2025
    (by decide) (by decide) (by decide) (by decide) (by decide) (by decide)
    (by decide) (by decide) (by decide) (by decide) (by decide) (by decide)
    (by decide)

/-- Counterexample to claim C6: the ranges 2018-2023 and 2020-2022
overlap (the second lies inside the first), yet
_calculate_from_date_ranges sums both durations: adding the fully
contained range raises the total from 5 to 5 + 2 = 7, so the step does
not sum non-overlapping periods only. -/
theorem claim6_counterexample :
    calcFromDateRanges "2018 - 2023" 2025 = 5 ∧
    calcFromDateRanges "2018 - 2023 and 2020 - 2022" 2025 = 7 := by
  constructor
  · unfold calcFromDateRanges
    rw [show calcYearsNat "2018 - 2023" 2025 = 5 from by decide]
    norm_num
  · unfold calcFromDateRanges
    rw [show calcYearsNat "2018 - 2023 and 2020 - 2022" 2025 = 7 from by
      decide]
    norm_num

/-- Claim C6 (amended): the date step sums the durations of all
distinct valid ranges, deduplicating identical ranges only and
performing no overlap check, with each range validated to have start
in 1980..current_year, end in start..current_year+1 and positive
duration at most 50; the text with 2018 - 2023 and 2023 - Present at
current year 2025 yields 5 + 2 = 7. -/
theorem claim6_date_ranges_amended :
    (∀ (t : String) (cy : Nat),
      calcFromDateRanges t cy =
        ((((dedupFirst ((collectRanges t cy).filter (validRange cy))).map
          (fun p => p.2 - p.1)).sum : ℕ) : ℚ)) ∧
    calcFromDateRanges "2018 - 2023\n2023 - present" 2025 = 7 := by
  constructor
  · intro t cy
    unfold calcFromDateRanges calcYearsNat dedupFirst
    rw [calcLoop_eq]
    norm_num
  · unfold calcFromDateRanges
    rw [show calcYearsNat "2018 - 2023\n2023 - present" 2025 = 7 from by
      decide]
    norm_num

/-- Witness for claim C10 at a one-element list with no degree
keyword. -/
theorem claim10_education_floor_witness :
    50 ≤ computeEducationScore [EduItem.txt "pottery workshop"] ∧
    computeEducationScore [EduItem.txt "pottery workshop"] = 50 :=
  ⟨(claim10_education_floor [EduItem.txt "pottery workshop"]).1.1,
   (claim10_education_floor [EduItem.txt "pottery workshop"]).2.2 (by decide)⟩

end ResumeAI
